import Mathlib

/-!
Shallow embedding of `src/Backend/app.py`, the tool-augmented streaming
stock-analysis backend, together with proofs about the embedded code.

Modelling conventions:
- Python exceptions raised by an external collaborator (yfinance, the model
  provider) are modelled by `Outcome`: an external call either `raises` an
  exception carrying a message, or `returns` a value.
- A Python function that can let an exception escape is embedded with result
  type `Except String α` (`.error msg` = the exception propagates out of the
  function); a `try/except` block in the source is translated by catching the
  corresponding `Outcome.raises`.
- Python `None` becomes `Option.none`; Python truthiness on strings treats
  `""` and `None` as falsy, on numbers treats `0` and `None` as falsy, and is
  translated explicitly wherever the source relies on it (`x or y`, `if x:`).
- Python `str.lower` and the `in` substring test are implemented structurally
  (`lowerStr`, `strContains`) so that concrete instances evaluate in the
  kernel.
- Prices are modelled in integer cents (`Nat`), so the source's
  `f"${price:,.2f}"` formatting becomes exact arithmetic on cents
  (`formatDollars`): dollars with thousands separators, a dot, two decimal
  digits.
- Pandas frames are modelled by the projections the source reads: the price
  history by its list of Close values (`hist.empty` = the list is empty,
  `hist['Close'].iloc[-1]` = the last element); the raw frames returned
  whole by tools are opaque table values.
-/

/-- Result of calling an external collaborator: the call either raises a
Python exception (carrying its message) or returns a value. -/
inductive Outcome (α : Type) : Type
  | raises (msg : String)
  | returns (a : α)
deriving DecidableEq

/-- How the model-provider stream terminates, as observed inside
`chat.generate` (app.py lines 206-228): it is exhausted normally, raises
`genai_errors.ClientError` (with an optional `code` attribute and a message,
modelling `str(err)`), or raises any other `Exception`. -/
inductive StreamEnd : Type
  | done
  | clientError (code : Option Nat) (msg : String)
  | otherError (msg : String)
deriving DecidableEq

/-- Whether `pat` is an initial segment of `s` (helper for the Python `in`
substring test). -/
def beginsList : List Char → List Char → Bool
  | [], _ => true
  | _ :: _, [] => false
  | p :: ps, c :: cs => p == c && beginsList ps cs

/-- Whether `pat` occurs contiguously inside `s` (helper for the Python `in`
substring test). -/
def subList (pat : List Char) : List Char → Bool
  | [] => beginsList pat []
  | c :: cs => beginsList pat (c :: cs) || subList pat cs

/-- Python `pat in s` for strings. -/
def strContains (s pat : String) : Bool :=
  subList pat.toList s.toList

/-- Python `str.lower`, mapping each character to lower case. -/
def lowerStr (s : String) : String :=
  String.mk (s.toList.map Char.toLower)

/-- Python `str.upper`, mapping each character to upper case. -/
def upperStr (s : String) : String :=
  String.mk (s.toList.map Char.toUpper)

/-- Advisory fragment yielded on a quota/rate-limit failure
(app.py line 224). -/
def quotaAdvisory : String :=
  "⚠️ Model quota exhausted. Please retry shortly or upgrade your plan."

/-- Advisory fragment yielded on any other upstream client error
(app.py line 226). -/
def clientAdvisory (msg : String) : String :=
  "⚠️ Upstream client error: " ++ msg

/-- Advisory fragment yielded on any other unexpected failure
(app.py line 228). -/
def unexpectedAdvisory (msg : String) : String :=
  "⚠️ Unexpected server error: " ++ msg

/-- The trailing fragments produced by the `except` clauses of
`chat.generate` (app.py lines 222-228): a `ClientError` with `code == 429`
or `'quota' in str(err).lower()` yields the quota advisory, any other
`ClientError` yields the client-error advisory with the error text, and any
other exception yields the unexpected-error advisory; normal exhaustion adds
nothing. -/
def classifyEnd : StreamEnd → List String
  | .done => []
  | .clientError code msg =>
      if code == some 429 || strContains (lowerStr msg) "quota" then
        [quotaAdvisory]
      else
        [clientAdvisory msg]
  | .otherError msg => [unexpectedAdvisory msg]

/-- The full fragment sequence emitted by the generator of `chat`
(app.py lines 206-228): the tokens streamed before the model call ends,
followed by whatever the error handling appends. The result type is a plain
list: the `try/except Exception` structure lets no exception escape the
generator. -/
def generate (tokens : List String) (fin : StreamEnd) : List String :=
  tokens ++ classifyEnd fin

/-- Helper for thousands grouping: emit characters, placing a comma before
each position where the countdown to the next group boundary has reached
zero and characters remain. -/
def groupAux : Nat → List Char → List Char
  | _, [] => []
  | 0, c :: cs => ',' :: c :: groupAux 2 cs
  | k + 1, c :: cs => c :: groupAux k cs

/-- Helper for thousands grouping: the decimal digits reversed, with a comma
inserted after every third digit. -/
def groupDigits (cs : List Char) : List Char :=
  groupAux 3 cs

/-- Decimal rendering of a natural number with thousands separators, as the
`,` flag of Python's format spec produces. -/
def withCommas (n : Nat) : String :=
  String.mk ((groupDigits (toString n).toList.reverse).reverse)

/-- Two-digit rendering of a value below 100 (the cents part). -/
def pad2 (n : Nat) : String :=
  if n < 10 then "0" ++ toString n else toString n

/-- The source's `f"${price:,.2f}"` (app.py line 76) on a price given in
exact cents: a dollar sign, the dollars with thousands separators, a dot and
two decimal digits. -/
def formatDollars (cents : Nat) : String :=
  "$" ++ withCommas (cents / 100) ++ "." ++ pad2 (cents % 100)

/-- The fields of `stock.fast_info` that `get_stock_price` reads when the
attribute is a dict (app.py line 57); an absent key is `none`. -/
structure FastInfo where
  last_price : Option Nat
  last_close : Option Nat
deriving DecidableEq

/-- One possible behaviour of the yfinance collaborator during a
`get_stock_price` call: each of the three accesses the source guards with
its own `try` (the history fetch, the `fast_info` attribute, the `info`
attribute) either raises or returns.
`history` returns the Close column in cents; `fast_info` returns `none` when
the attribute is missing, falsy, or not a dict (the source's
`if fast and isinstance(fast, dict)` test); `info` returns the `shortName`
and `longName` entries of `getattr(stock, 'info', {}) or {}`. -/
structure PriceProvider where
  history : Outcome (List Nat)
  fast_info : Outcome (Option FastInfo)
  info : Outcome (Option String × Option String)
deriving DecidableEq

/-- Python `a or b` on optional numbers, where `None` and `0` are falsy
(the source's `fast.get('last_price') or fast.get('last_close')`). -/
def pyOrNum : Option Nat → Option Nat → Option Nat
  | some v, b => if v ≠ 0 then some v else b
  | none, b => b

/-- Python `a or b` on optional strings, where `None` and `""` are falsy
(the source's `info.get('shortName') or info.get('longName')`). -/
def pyOrStr : Option String → Option String → Option String
  | some s, b => if s ≠ "" then some s else b
  | none, b => b

/-- First stage of `get_stock_price` (app.py lines 45-50): the last Close of
the fetched history, `none` when the history is empty or the fetch raised. -/
def histPrice (p : PriceProvider) : Option Nat :=
  match p.history with
  | .raises _ => none
  | .returns h => h.getLast?

/-- The price `get_stock_price` ends up with (app.py lines 45-59): the last
Close of the history when available, otherwise the `fast_info` fallback
(`last_price` or `last_close`, Python-or), otherwise `none`; a raise inside
either guarded block leaves the price `None`. -/
def resolvePrice (p : PriceProvider) : Option Nat :=
  match histPrice p with
  | some v => some v
  | none =>
      match p.fast_info with
      | .raises _ => none
      | .returns none => none
      | .returns (some f) => pyOrNum f.last_price f.last_close

/-- The company name `get_stock_price` ends up with (app.py lines 62-67):
`shortName` or `longName` from the info dict, `none` when the access raised
or both entries are missing. -/
def resolveName (p : PriceProvider) : Option String :=
  match p.info with
  | .raises _ => none
  | .returns (s, l) => pyOrStr s l

/-- The `get_stock_price` tool (app.py lines 38-82). Every data-provider
access inside it is individually guarded by `try/except`, so the embedding
never produces `.error`: with no price it returns the no-data message for
the uppercased symbol, otherwise the price sentence, naming the company when
the resolved name is truthy (`if name:`). `symbol` is
`(ticker or '').upper()`, which equals `ticker.upper()` for every string. -/
def get_stock_price (ticker : String) (p : PriceProvider) : Except String String :=
  match resolvePrice p with
  | none => .ok ("No price data available for " ++ upperStr ticker ++ ".")
  | some v =>
      match resolveName p with
      | some n =>
          if n ≠ "" then
            .ok ("The current stock price of " ++ n ++ " (" ++ upperStr ticker ++ ") is " ++
              formatDollars v ++ ".")
          else
            .ok ("The current stock price of " ++ upperStr ticker ++ " is " ++
              formatDollars v ++ ".")
      | none =>
          .ok ("The current stock price of " ++ upperStr ticker ++ " is " ++
            formatDollars v ++ ".")

/-- Opaque model of the pandas frame dict produced by
`stock.history(start=..., end=...).to_dict()`: column name to indexed
values. -/
abbrev HistTable := List (String × List (String × Int))

/-- The `get_historical_stock_price` tool (app.py lines 85-89): it fetches
the history and returns its dict with no exception handling, so a raise in
the fetch propagates out of the tool function. -/
def get_historical_stock_price (ticker start_date end_date : String)
    (history : Outcome HistTable) : Except String HistTable :=
  match ticker, start_date, end_date, history with
  | _, _, _, .raises msg => .error msg
  | _, _, _, .returns h => .ok h

/-- Opaque model of the `stock.balance_sheet` frame: row label to values. -/
abbrev BalanceTable := List (String × List Int)

/-- The `get_balance_sheet` tool (app.py lines 92-96): it returns the
balance-sheet frame with no exception handling, so a raise in the fetch
propagates out of the tool function. -/
def get_balance_sheet (ticker : String) (sheet : Outcome BalanceTable) :
    Except String BalanceTable :=
  match ticker, sheet with
  | _, .raises msg => .error msg
  | _, .returns b => .ok b

/-- A value that in Python is either a string or a dict, as the news
normalization encounters for `provider` and `canonicalUrl` entries. -/
inductive StrOrDict (α : Type) : Type
  | str (s : String)
  | dict (d : α)

/-- The `provider`/`publisher`/`source` entry of a news item when it is a
dict (fields read at app.py line 127). -/
structure ProviderDict where
  displayName : Option String
  name : Option String

/-- The `canonicalUrl`/`clickThroughUrl` entry of a news item when it is a
dict (field read at app.py line 135). -/
structure UrlDict where
  url : Option String

/-- The fields of a news entry dict that `get_stock_news` reads
(app.py lines 121-137); any absent key is `none`. -/
structure NewsContent where
  title : Option String
  summary : Option String
  description : Option String
  provider : Option (StrOrDict ProviderDict)
  publisher : Option (StrOrDict ProviderDict)
  source : Option (StrOrDict ProviderDict)
  displayTime : Option String
  pubDate : Option String
  canonicalUrl : Option (StrOrDict UrlDict)
  clickThroughUrl : Option (StrOrDict UrlDict)

/-- One element of the raw `stock.news` list: a dict (with an optional
nested truthy `content` dict, app.py line 114) or a plain non-dict entry
modelled by its string value. -/
inductive NewsItem : Type
  | item (content : Option NewsContent) (top : NewsContent)
  | plain (s : String)

/-- Python `a or b` on optional string-or-dict values: a present dict is
truthy, a present string is truthy when nonempty. -/
def pyOrVal {α : Type} : Option (StrOrDict α) → Option (StrOrDict α) → Option (StrOrDict α)
  | some (.str s), b => if s ≠ "" then some (.str s) else b
  | some (.dict d), _ => some (.dict d)
  | none, b => b

/-- The bullet line `get_stock_news` builds for one news item
(app.py lines 112-150): pick the entry (the nested `content` dict if truthy,
else the item itself), extract title/provider/time/url with the source's
`or`-fallback chains, then apply the non-dict fallbacks (`'No title'`,
`'Unknown source'`, empty time) and assemble the line with the optional
`[time] ` and ` — url` parts. -/
def newsLine (it : NewsItem) : String :=
  let entry : StrOrDict NewsContent :=
    match it with
    | .item (some c) _ => .dict c
    | .item none top => .dict top
    | .plain s => .str s
  let fields : Option String × Option String × Option String × Option String :=
    match entry with
    | .dict e =>
        let t := pyOrStr (pyOrStr e.title e.summary) e.description
        let prov := pyOrVal (pyOrVal e.provider e.publisher) e.source
        let pr : Option String :=
          match prov with
          | some (.dict d) => pyOrStr d.displayName d.name
          | some (.str s) => some s
          | none => none
        let tm := pyOrStr e.displayTime e.pubDate
        let can := pyOrVal e.canonicalUrl e.clickThroughUrl
        let u : Option String :=
          match can with
          | some (.dict d) => d.url
          | some (.str s) => some s
          | none => none
        (t, pr, tm, u)
    | .str _ => (none, none, none, none)
  let strEntry : Option String :=
    match entry with
    | .str s => some s
    | .dict _ => none
  let title := (pyOrStr (pyOrStr fields.1 strEntry) (some "No title")).getD "No title"
  let provider := (pyOrStr fields.2.1 (some "Unknown source")).getD "Unknown source"
  let time := (fields.2.2.1).getD ""
  let timeStr := if time ≠ "" then "[" ++ time ++ "] " else ""
  match fields.2.2.2 with
  | some u =>
      if u ≠ "" then
        "- " ++ timeStr ++ title ++ " (" ++ provider ++ ") — " ++ u
      else
        "- " ++ timeStr ++ title ++ " (" ++ provider ++ ")"
  | none => "- " ++ timeStr ++ title ++ " (" ++ provider ++ ")"

/-- The `get_stock_news` tool (app.py lines 99-152): the raw feed is fetched
with no exception handling (a raise propagates); a falsy feed (empty or
missing) yields the no-news message for the uppercased ticker; otherwise the
top five items are summarized, one bullet line each, under a header line,
joined with newlines. -/
def get_stock_news (ticker : String) (news : Outcome (List NewsItem)) :
    Except String String :=
  match news with
  | .raises msg => .error msg
  | .returns raw =>
      if raw.isEmpty then
        .ok ("No recent news found for " ++ upperStr ticker ++ ".")
      else
        .ok (String.intercalate "\n"
          (("Here are the latest updates for " ++ upperStr ticker ++ ":") ::
            (raw.take 5).map newsLine))

/-- The base64 alphabet (RFC 4648), as `base64.b64encode` uses. -/
def base64Alphabet : List Char :=
  "ABCDEFGHIJKLMNOPQRSTUVWXYZabcdefghijklmnopqrstuvwxyz0123456789+/".toList

/-- The base64 character for a 6-bit value. -/
def b64c (n : Nat) : Char :=
  base64Alphabet.getD n 'A'

/-- Standard base64 of a byte list, three bytes to four characters with `=`
padding, as `base64.b64encode` produces. -/
def base64Chunks : List Nat → List Char
  | [] => []
  | [b1] => [b64c (b1 / 4), b64c (b1 % 4 * 16), '=', '=']
  | [b1, b2] => [b64c (b1 / 4), b64c (b1 % 4 * 16 + b2 / 16), b64c (b2 % 16 * 4), '=']
  | b1 :: b2 :: b3 :: rest =>
      b64c (b1 / 4) :: b64c (b1 % 4 * 16 + b2 / 16) :: b64c (b2 % 16 * 4 + b3 / 64) ::
        b64c (b3 % 64) :: base64Chunks rest

/-- The source's `base64.b64encode(buffer.read()).decode('utf-8')`
(app.py line 175) on the rendered PNG bytes. -/
def base64Encode (bytes : List Nat) : String :=
  String.mk (base64Chunks (bytes.map (· % 256)))

/-- The `render_stock_chart` tool (app.py lines 154-176). The history fetch
has no exception handling (a raise propagates). An empty history returns the
textual no-data message naming the ticker (not uppercased in the source).
Otherwise the matplotlib figure rendering — an external collaborator,
modelled by the total function `render` from the Close series to the PNG
bytes — is base64-encoded into a PNG data URI. -/
def render_stock_chart (ticker period interval : String)
    (history : Outcome (List Nat)) (render : List Nat → List Nat) :
    Except String String :=
  match history with
  | .raises msg => .error msg
  | .returns h =>
      if h.isEmpty then
        .ok ("No price data available for " ++ ticker ++ ".")
      else
        .ok ("data:image/png;base64," ++ base64Encode (render h))

/-- The request schema of the chat endpoint (app.py lines 190-199). -/
structure PromptObject where
  content : String
  id : String
  role : String

/-- The request schema of the chat endpoint (app.py lines 196-199). -/
structure RequestObject where
  prompt : PromptObject
  threadId : String
  responseId : String

/-- Role of a message handed to the agent. -/
inductive Role : Type
  | system
  | user
deriving DecidableEq

/-- A message handed to the agent: a role and text content. -/
structure Message where
  role : Role
  content : String
deriving DecidableEq

/-- The fixed system instruction of the chat endpoint
(app.py lines 210-215, Python adjacent-literal concatenation). -/
def systemInstruction : String :=
  "You are a stock analysis assistant. You can stream answers, fetch real-time stock " ++
  "prices, historical prices (with date range), news, balance sheet data, and also " ++
  "render quick PNG price charts via the render_stock_chart tool. If you return a " ++
  "data URI image, present it as markdown so the client can display the chart."

/-- The `messages` value `chat` passes to `agent.stream` for a request
(app.py lines 208-217): the fixed system instruction followed by the
request's prompt content as the human message. -/
def chatInput (req : RequestObject) : List Message :=
  [⟨Role.system, systemInstruction⟩, ⟨Role.user, req.prompt.content⟩]

/-- C1: for every exception raised while the chat generator is producing
output (quota, client, or any unexpected failure), the emitted stream is
exactly the fragments already yielded followed by one final client-visible
advisory fragment: nothing already sent is retracted, and no exception
reaches the transport layer (the generator's output is a total list). -/
theorem generate_ends_with_advisory (tokens : List String) (fin : StreamEnd)
    (h : fin ≠ StreamEnd.done) :
    ∃ adv, generate tokens fin = tokens ++ [adv] := by
  cases fin with
  | done => exact absurd rfl h
  | clientError code msg =>
      simp only [generate, classifyEnd]
      split
      · exact ⟨quotaAdvisory, rfl⟩
      · exact ⟨clientAdvisory msg, rfl⟩
  | otherError msg => exact ⟨unexpectedAdvisory msg, rfl⟩

/-- Witness for C1 at a concrete failing stream: one token was yielded, then
an unexpected exception occurred. -/
theorem generate_ends_with_advisory_witness :
    ∃ adv, generate ["Hello"] (StreamEnd.otherError "boom") = ["Hello"] ++ [adv] :=
  generate_ends_with_advisory ["Hello"] (StreamEnd.otherError "boom") (by decide)

/-- C3: for every provider client error whose status code is 429 or whose
message mentions quota exhaustion, the stream yields exactly one advisory
fragment after the already-produced tokens — the fixed quota advisory, whose
text indicates quota exhaustion — and then closes cleanly. -/
theorem generate_quota (tokens : List String) (code : Option Nat) (msg : String)
    (h : (code == some 429 || strContains (lowerStr msg) "quota") = true) :
    generate tokens (StreamEnd.clientError code msg) = tokens ++ [quotaAdvisory] ∧
      strContains (lowerStr quotaAdvisory) "quota" = true := by
  refine ⟨?_, by decide⟩
  simp [generate, classifyEnd, h]

/-- Witness for C3 at a concrete quota failure: a 429 client error after two
tokens. -/
theorem generate_quota_witness :
    generate ["a", "b"] (StreamEnd.clientError (some 429) "rate limited") =
        ["a", "b"] ++ [quotaAdvisory] ∧
      strContains (lowerStr quotaAdvisory) "quota" = true :=
  generate_quota ["a", "b"] (some 429) "rate limited" (by decide)

/-- C4: for every upstream client failure not classified as quota exhaustion,
the stream emits a single user-facing fragment that embeds the error text as
a brief diagnostic, and then ends cleanly. -/
theorem generate_client_error (tokens : List String) (code : Option Nat) (msg : String)
    (h : (code == some 429 || strContains (lowerStr msg) "quota") = false) :
    generate tokens (StreamEnd.clientError code msg) =
      tokens ++ ["⚠️ Upstream client error: " ++ msg] := by
  simp [generate, classifyEnd, h, clientAdvisory]

/-- Witness for C4 at a concrete non-quota client error. -/
theorem generate_client_error_witness :
    generate [] (StreamEnd.clientError (some 400) "bad request") =
      [] ++ ["⚠️ Upstream client error: " ++ "bad request"] :=
  generate_client_error [] (some 400) "bad request" (by decide)

/-- Helper: every branch of `get_stock_price` returns normally, whatever the
provider does. -/
theorem get_stock_price_ok (ticker : String) (p : PriceProvider) :
    ∃ s, get_stock_price ticker p = Except.ok s := by
  unfold get_stock_price
  cases hp : resolvePrice p with
  | none => exact ⟨_, rfl⟩
  | some v =>
      cases hn : resolveName p with
      | none => exact ⟨_, rfl⟩
      | some n =>
          by_cases hne : n = ""
          · simp [hne]
          · simp [hne]

/-- C10: `get_stock_price` is total with respect to its collaborators — for
every ticker string and every provider behaviour, including exceptions
raised while fetching the history, the `fast_info` attribute, or the company
info, it returns a string result and never propagates an exception. -/
theorem get_stock_price_total (ticker : String) (p : PriceProvider) :
    ∃ s, get_stock_price ticker p = Except.ok s :=
  get_stock_price_ok ticker p

/-- C6: for every ticker for which no price can be obtained (no usable
history and no fallback price), `get_stock_price` returns the descriptive
no-data message with the ticker uppercased, rather than failing. -/
theorem get_stock_price_no_data (ticker : String) (p : PriceProvider)
    (h : resolvePrice p = none) :
    get_stock_price ticker p =
      Except.ok ("No price data available for " ++ upperStr ticker ++ ".") := by
  simp [get_stock_price, h]

/-- Witness for C6: an empty history, no fast-info fallback and an empty
info dict produce the concrete no-data message. -/
theorem get_stock_price_no_data_witness :
    get_stock_price "xyz"
        ⟨Outcome.returns [], Outcome.returns none, Outcome.returns (none, none)⟩ =
      Except.ok ("No price data available for " ++ upperStr "xyz" ++ ".") :=
  get_stock_price_no_data "xyz"
    ⟨Outcome.returns [], Outcome.returns none, Outcome.returns (none, none)⟩ rfl

/-- C7: for every ticker whose price and (truthy) company name are
available, `get_stock_price` returns the sentence naming the company, with
the symbol uppercased and the price formatted to two decimals; when no name
is available the sentence omits the name. -/
theorem get_stock_price_sentence (ticker : String) (p : PriceProvider) (v : Nat) (n : String)
    (hp : resolvePrice p = some v) (hn : resolveName p = some n) (hne : n ≠ "") :
    get_stock_price ticker p =
      Except.ok ("The current stock price of " ++ n ++ " (" ++ upperStr ticker ++ ") is " ++
        formatDollars v ++ ".") ∧
    ∀ q : PriceProvider, resolvePrice q = some v → resolveName q = none →
      get_stock_price ticker q =
        Except.ok ("The current stock price of " ++ upperStr ticker ++ " is " ++
          formatDollars v ++ ".") := by
  constructor
  · simp [get_stock_price, hp, hn, hne]
  · intro q hq hnq
    simp [get_stock_price, hq, hnq]

/-- Witness for C7, reproducing the specification's example sentence: a
provider whose history ends at 123.45 dollars and whose info names the
company Acme Corp. -/
theorem get_stock_price_sentence_witness :
    get_stock_price "acme"
        ⟨Outcome.returns [12345], Outcome.returns none,
          Outcome.returns (some "Acme Corp", none)⟩ =
      Except.ok "The current stock price of Acme Corp (ACME) is $123.45." := by
  have h := (get_stock_price_sentence "acme"
    ⟨Outcome.returns [12345], Outcome.returns none,
      Outcome.returns (some "Acme Corp", none)⟩ 12345 "Acme Corp" rfl rfl (by decide)).1
  rw [h]
  exact congrArg Except.ok (by decide)


/-- C2 counterexample: a data-provider failure during the execution of
`get_historical_stock_price` is not caught inside the tool and converted
into a textual result — the exception propagates out of the tool function. -/
theorem historical_price_propagates :
    get_historical_stock_price "AAPL" "2024-01-01" "2024-03-01"
        (Outcome.raises "provider unreachable") =
      Except.error "provider unreachable" := rfl

/-- C2 amended: only `get_stock_price` contains its provider failures inside
the tool; `get_historical_stock_price`, `get_balance_sheet`,
`get_stock_news` and `render_stock_chart` perform their data fetches with no
exception handling, so a runtime failure raised there propagates out of the
tool function unchanged. -/
theorem tool_failure_containment (ticker start_date end_date msg : String)
    (p : PriceProvider) :
    get_historical_stock_price ticker start_date end_date (Outcome.raises msg) =
        Except.error msg ∧
      get_balance_sheet ticker (Outcome.raises msg) = Except.error msg ∧
      get_stock_news ticker (Outcome.raises msg) = Except.error msg ∧
      (∀ (period interval : String) (render : List Nat → List Nat),
        render_stock_chart ticker period interval (Outcome.raises msg) render =
          Except.error msg) ∧
      ∃ s, get_stock_price ticker p = Except.ok s :=
  ⟨rfl, rfl, rfl, fun _ _ _ => rfl, get_stock_price_ok ticker p⟩

/-- C5: for every ticker, period and interval, an empty fetched history
makes `render_stock_chart` return the textual no-data message naming the
ticker instead of an image, and every non-empty history produces a text
result that begins with the PNG data-URI marker. -/
theorem render_stock_chart_cases (ticker period interval : String)
    (v : Nat) (rest : List Nat) (render : List Nat → List Nat) :
    render_stock_chart ticker period interval (Outcome.returns []) render =
        Except.ok ("No price data available for " ++ ticker ++ ".") ∧
      ∃ tail, render_stock_chart ticker period interval (Outcome.returns (v :: rest)) render =
        Except.ok ("data:image/png;base64," ++ tail) :=
  ⟨rfl, ⟨base64Encode (render (v :: rest)), rfl⟩⟩

/-- C8: for every incoming chat request, the message list handed to the
agent for the turn contains the fixed system instruction and ends with the
request's prompt content as the newest user message, before the first model
call of the turn. -/
theorem chatInput_system_and_user (req : RequestObject) :
    Message.mk Role.system systemInstruction ∈ chatInput req ∧
      Message.mk Role.user req.prompt.content ∈ chatInput req ∧
      (chatInput req).getLast? = some (Message.mk Role.user req.prompt.content) := by
  refine ⟨?_, ?_, rfl⟩
  · simp [chatInput]
  · simp [chatInput]

/-- C9: for every ticker whose news feed comes back empty (or missing, which
the source's falsiness test treats the same), `get_stock_news` returns the
no-news message with the ticker uppercased, as a valid non-error result. -/
theorem get_stock_news_empty (ticker : String) :
    get_stock_news ticker (Outcome.returns []) =
      Except.ok ("No recent news found for " ++ upperStr ticker ++ ".") := rfl
